import Mathlib

/-!
Verification development for the `rpcfg` interactive configuration collector.

The definitions below are a shallow embedding of the Rust sources:
  * `src/models.rs`        — `ConfigItem`, `Config`, `Config::validate_rpcfg_config`
  * `src/rp_macros.rs`     — `base_output_dir`, `JsonOutputUri!`, `EnvOutputUri!`
  * `src/commands/collect.rs` — `execute`, `collect_user_input`,
    `initialize_config_values`, `interactive_config_loop`, `read_user_input`,
    `handle_item_update`, `set_environment_variables`, `show_current_config`,
    `update_item`, `save_configuration`, `add_new_setting`

I/O is modelled explicitly: the input stream is a list of lines (a `Cursor`
at end of file yields `""` on every further `read_line`, which `read_line`
below mirrors), the output stream is the list of strings written to it, file
writes are returned as values, and `std::env::set_var` calls are returned as
a list of name/value pairs.  Filesystem-dependent path prefixes
(`get_rp_dir!`, which reads `HOME`/temp-dir) are abstracted as the constant
segment `<rp>`; modification times are abstract naturals.
-/

namespace Rpcfg

/-- Mirrors `ConfigItem` (src/models.rs).  Field order and names follow the
Rust struct. -/
structure ConfigItem where
  key : String
  description : String
  shellscript : String
  default : String
  temp_environment_variable_name : String
  required_as_env : Bool
  value : String
  deriving DecidableEq

/-- Mirrors `Config` (src/models.rs).  The `input_file` field does not appear
in the `models.rs` snapshot of the struct, but `save_configuration`
(src/commands/collect.rs line 457) and `test_utils.rs` both use
`config.input_file`, so the compiled crate's struct carries it; it is
included here. -/
structure Config where
  rpcfg : List ConfigItem
  app : List ConfigItem
  is_test : Bool
  input_file : String
  deriving DecidableEq

/-- Mirrors `Status` (src/models.rs). -/
inductive Status where
  | ok
  | error
  deriving DecidableEq

/-- Mirrors `CommandResult` (src/models.rs). -/
structure CommandResult where
  status : Status
  message : String
  env_file : Option String
  json_file : Option String
  deriving DecidableEq

/-- Rust `str::to_uppercase`, restricted to the ASCII mapping (the two agree
on every key occurring in the program's configurations). -/
def str_to_upper (s : String) : String :=
  ⟨s.data.map Char.toUpper⟩

/-- Rust `str::to_lowercase`, restricted to the ASCII mapping. -/
def str_to_lower (s : String) : String :=
  ⟨s.data.map Char.toLower⟩

/-- Rust `str::trim`: leading and trailing whitespace removed. -/
def str_trim (s : String) : String :=
  ⟨((s.data.dropWhile Char.isWhitespace).reverse.dropWhile Char.isWhitespace).reverse⟩

/-- Mirrors `Config::get_settings` (src/models.rs): all items, in the
rpcfg-then-app chain order, whose key equals the given key. -/
def Config.get_settings (c : Config) (key : String) : List ConfigItem :=
  (c.rpcfg ++ c.app).filter (fun item => item.key == key)

/-- Mirrors `base_output_dir` (src/rp_macros.rs).  The `get_rp_dir!` prefix
depends on `HOME`/the temp directory and is abstracted as the constant
segment `<rp>`; the claims depend only on whether the result is `none` and
on the name segments. -/
def base_output_dir (c : Config) : Option String :=
  let stored := (((c.get_settings "stored").head?).map (fun item => item.value)).getD "local"
  let project_name := (((c.get_settings "project_name").head?).map (fun item => item.value)).getD "default_project"
  let config_name := (((c.get_settings "config_name").head?).map (fun item => item.value)).getD "default_config"
  let environment := (((c.get_settings "environment").head?).map (fun item => item.value)).getD "default_env"
  if stored == "local" then
    some ("<rp>/" ++ project_name ++ "/" ++ config_name ++ "-" ++ environment)
  else
    none

/-- Mirrors `JsonOutputUri!` (src/rp_macros.rs): base path with extension
`json`.  `with_extension` is modelled as appending, since the base name
carries no extension. -/
def json_output_uri (c : Config) : Option String :=
  (base_output_dir c).map (fun p => p ++ ".json")

/-- Mirrors `EnvOutputUri!` (src/rp_macros.rs). -/
def env_output_uri (c : Config) : Option String :=
  (base_output_dir c).map (fun p => p ++ ".env")

/-- One pass of the empty-value defaulting done both by
`initialize_config_values` (src/commands/collect.rs lines 156-162) and by the
first loop of `Config::validate_rpcfg_config` (src/models.rs lines 75-84):
an item whose value is empty gets its default as value. -/
def init_item (item : ConfigItem) : ConfigItem :=
  if item.value == "" then { item with value := item.default } else item

/-- Mirrors `initialize_config_values` (src/commands/collect.rs): both the
rpcfg and the app sequence get empty values replaced by defaults. -/
def initialize_config_values (c : Config) : Config :=
  { c with rpcfg := c.rpcfg.map init_item, app := c.app.map init_item }

/-- The `"stored"` item pushed by `Config::validate_rpcfg_config`
(src/models.rs lines 97-105) when none is present. -/
def stored_default_item : ConfigItem :=
  { key := "stored", description := "Storage type for configuration",
    shellscript := "", default := "local",
    temp_environment_variable_name := "", required_as_env := false,
    value := "local" }

/-- Mirrors the `iter_mut().find(...)` part of `validate_rpcfg_config`
(src/models.rs lines 87-94): the first item keyed `"stored"`, if any, has its
value coerced to `"local"` unless it is `"local"` or `"keyvault"`; `none`
when no item is keyed `"stored"`. -/
def fix_stored : List ConfigItem → Option (List ConfigItem)
  | [] => none
  | item :: rest =>
    if item.key == "stored" then
      if item.value == "local" || item.value == "keyvault" then
        some (item :: rest)
      else
        some ({ item with value := "local" } :: rest)
    else
      (fix_stored rest).map (fun l => item :: l)

/-- Mirrors `Config::validate_rpcfg_config` (src/models.rs lines 74-109):
first every rpcfg item with an empty value is set to its default, then the
first `"stored"` item is coerced to a valid storage value, or a default
`"stored"` item is appended when none exists.  The Rust function returns
`Result` but never errs, so it is modelled as pure. -/
def validate_rpcfg_config (c : Config) : Config :=
  let rpcfg1 := c.rpcfg.map init_item
  match fix_stored rpcfg1 with
  | some l => { c with rpcfg := l }
  | none => { c with rpcfg := rpcfg1 ++ [stored_default_item] }

/-- Insertion into the flat `HashMap<String, String>` built by
`save_configuration` (src/commands/collect.rs lines 429-435), represented as
an association list: a present key has its value replaced, an absent key is
appended.  A `HashMap` carries no meaningful entry order; this list records
insertion order, and serialization order is quantified separately (see
`json_bytes_admissible`). -/
def hashmap_insert : List (String × String) → String → String → List (String × String)
  | [], k, v => [(k, v)]
  | p :: rest, k, v =>
    if p.1 == k then (k, v) :: rest else p :: hashmap_insert rest k v

/-- One step of the flat-map construction loop of `save_configuration`:
items keyed `"is_test"` are skipped, all others are inserted. -/
def flat_step (m : List (String × String)) (item : ConfigItem) : List (String × String) :=
  if item.key == "is_test" then m else hashmap_insert m item.key item.value

/-- The contents of the flat JSON `HashMap` built by `save_configuration`
(src/commands/collect.rs lines 429-435). -/
def flat_json (c : Config) : List (String × String) :=
  (c.rpcfg ++ c.app).foldl flat_step []

/-- `HashMap` lookup on the association-list representation. -/
def map_lookup (m : List (String × String)) (k : String) : Option String :=
  ((m.find? (fun p => p.1 == k))).map (fun p => p.2)

/-- The lines of the ENV output file written by `save_configuration`
(src/commands/collect.rs lines 442-449): one `KEY=value` line, key
upper-cased, per item with `required_as_env`.  `String.toUpper` matches
Rust's `to_uppercase` on the ASCII keys used throughout. -/
def env_lines (c : Config) : List String :=
  (c.rpcfg ++ c.app).filterMap
    (fun item =>
      if item.required_as_env then
        some (str_to_upper item.key ++ "=" ++ item.value)
      else
        none)

/-- The bytes of the ENV output file: each line followed by a newline, as
written by `writeln!`. -/
def env_content (c : Config) : String :=
  String.join ((env_lines c).map (fun l => l ++ "\n"))

/-- `serde_json::to_string_pretty` of a string map, given the entry order in
which the `HashMap` iterator yields the entries.  Escaping of special
characters inside keys and values is not modelled; the concrete
configurations used below contain none. -/
def json_pretty (entries : List (String × String)) : String :=
  match entries with
  | [] => "\x7b\x7d"
  | _ =>
    "\x7b\n"
      ++ String.intercalate ",\n"
          (entries.map (fun p => "  \x22" ++ p.1 ++ "\x22: \x22" ++ p.2 ++ "\x22"))
      ++ "\n\x7d"

/-- The JSON bytes `save_configuration` may write for a configuration:
`serde_json` serializes the `HashMap` in iteration order, and the iteration
order of `std::collections::HashMap` is unspecified (randomized hashing, a
fresh random state per map instance), so any enumeration of the map entries
is admissible. -/
def json_bytes_admissible (c : Config) (s : String) : Prop :=
  ∃ l : List (String × String), l.Perm (flat_json c) ∧ s = json_pretty l

/-- The files written by one successful `save_configuration` call. -/
structure SaveOutput where
  json_entries : List (String × String)
  env_file_content : String
  input_file_written : Bool
  deriving DecidableEq

/-- Mirrors `save_configuration` (src/commands/collect.rs lines 413-472):
fails when `base_output_dir` is `none`, otherwise writes the flat JSON map
and the ENV lines, and re-serializes the configuration to its input file
when `save_input` is set and an input file path is present. -/
def save_configuration (c : Config) (save_input : Bool) : Except String SaveOutput :=
  match base_output_dir c with
  | none => .error "Failed to get base output directory"
  | some _ =>
    .ok { json_entries := flat_json c,
          env_file_content := env_content c,
          input_file_written := save_input && !(c.input_file == "") }

/-- Mirrors `read_line` on the input stream: a `Cursor` at end of input
yields the empty string on every further read. -/
def read_line : List String → String × List String
  | [] => ("", [])
  | l :: ls => (l, ls)

/-- Mirrors `str::parse::<usize>`: an optional leading `+`, then one or more
ASCII digits, rejecting values that overflow the 64-bit `usize`. -/
def parse_usize (s : String) : Option Nat :=
  let t := match s.data with
    | '+' :: rest => rest
    | l => l
  if t.length > 0 && t.all Char.isDigit then
    let n := t.foldl (fun acc ch => acc * 10 + (ch.toNat - 48)) 0
    if n < 2 ^ 64 then some n else none
  else
    none

/-- Value replacement at a position of an item list, used by `update_item`. -/
def set_value_at : List ConfigItem → Nat → String → List ConfigItem
  | [], _, _ => []
  | item :: rest, 0, v => { item with value := v } :: rest
  | item :: rest, n + 1, v => item :: set_value_at rest n v

/-- The item at a chained (rpcfg-then-app) position. -/
def get_item (c : Config) (index : Nat) : Option ConfigItem :=
  (c.rpcfg ++ c.app)[index]?

/-- Mirrors `update_item` (src/commands/collect.rs lines 338-361): the item
at the chained position gets the trimmed line read from the input as its new
value. -/
def update_item (c : Config) (index : Nat) (raw : String) : Config :=
  let v := str_trim raw
  if index < c.rpcfg.length then
    { c with rpcfg := set_value_at c.rpcfg index v }
  else
    { c with app := set_value_at c.app (index - c.rpcfg.length) v }

/-- The prompt `update_item` writes before reading the new value. -/
def update_prompt (c : Config) (index : Nat) : String :=
  match get_item c index with
  | some item => "Enter new value for " ++ item.description ++ " (current: " ++ item.value ++ "): "
  | none => ""

/-- Result of one non-command step of the loop: the new configuration, the
input lines not yet consumed, and the strings written to the output. -/
structure StepOut where
  config : Config
  remaining : List String
  messages : List String
  deriving DecidableEq

/-- Mirrors `handle_item_update` (src/commands/collect.rs lines 226-242):
a parseable index in `1..=total` updates that item (consuming one more input
line for the new value), an out-of-range index reports
"Invalid item number. Please try again.", and non-numeric input reports
"Invalid input. Please try again."; in the two error cases the configuration
and the remaining input are untouched. -/
def handle_item_update (c : Config) (user_input : String) (inp : List String) : StepOut :=
  match parse_usize user_input with
  | some index =>
    if 0 < index ∧ index ≤ c.rpcfg.length + c.app.length then
      let r := read_line inp
      { config := update_item c (index - 1) r.1,
        remaining := r.2,
        messages := [update_prompt c (index - 1)] }
    else
      { config := c, remaining := inp,
        messages := ["Invalid item number. Please try again."] }
  | none =>
    { config := c, remaining := inp,
      messages := ["Invalid input. Please try again."] }

/-- Mirrors `set_environment_variables` (src/commands/collect.rs lines
244-251): the `std::env::set_var` calls performed, as name/value pairs, one
per item with `required_as_env` and a non-empty
`temp_environment_variable_name`. -/
def set_environment_variables (c : Config) : List (String × String) :=
  (c.rpcfg ++ c.app).filterMap
    (fun item =>
      if item.required_as_env && !(item.temp_environment_variable_name == "") then
        some (item.temp_environment_variable_name, item.value)
      else
        none)

/-- The value a table row displays: the value when non-empty, else the
default (src/commands/collect.rs lines 277-283). -/
def display_value (item : ConfigItem) : String :=
  if item.value == "" then item.default else item.value

/-- Mirrors `show_current_config` (src/commands/collect.rs lines 266-291) as
the list of rows written; `TabWriter` column alignment is not modelled
byte-exactly (no claim concerns the table bytes). -/
def show_current_config (c : Config) : List String :=
  (if c.is_test then ["(Test mode)"] else [])
    ++ ["Index\tDescription\tValue", "-----\t-----------\t-----"]
    ++ ((c.rpcfg ++ c.app).enum.map
        (fun p => toString (p.1 + 1) ++ "\t" ++ p.2.description ++ "\t" ++ display_value p.2))

/-- The main prompt of the loop (src/commands/collect.rs lines 191-194;
quotation marks around the command letters elided). -/
def main_prompt : String :=
  "\nEnter item number to update, S to save, N to add a new setting, or Q to quit: "

/-- Mirrors `add_new_setting` (src/commands/collect.rs lines 512-556): five
lines are read (key, description, default, environment variable name,
required-as-env y/n) and a new item with value equal to its default is
appended to the app sequence. -/
def add_new_setting (c : Config) (inp : List String) : StepOut :=
  let r1 := read_line inp
  let key := str_trim r1.1
  let r2 := read_line r1.2
  let description := str_trim r2.1
  let r3 := read_line r2.2
  let dflt := str_trim r3.1
  let r4 := read_line r3.2
  let tev := str_trim r4.1
  let r5 := read_line r4.2
  let required := str_to_lower (str_trim r5.1) == "y"
  { config :=
      { c with app := c.app ++
          [{ key := key, description := description, shellscript := "",
             default := dflt, temp_environment_variable_name := tev,
             required_as_env := required, value := dflt }] },
    remaining := r5.2,
    messages :=
      ["Adding a new setting:", "Enter key: ", "Enter description: ",
       "Enter default value: ",
       "Enter environment variable name (or leave empty): ",
       "Is this required as an environment variable? (y/n): ",
       "New setting added successfully."] }

/-- How the interactive loop ended.  `out_of_input` marks the point where the
input stream is exhausted: the Rust loop then reads `""` forever and never
terminates, so no claim depends on that branch.  `out_of_fuel` is
unreachable for the fuel used by `collect_user_input` (the loop consumes at
least one input line per iteration). -/
inductive LoopExit where
  | saved
  | quit
  | out_of_input
  | out_of_fuel
  deriving DecidableEq

/-- The observable outcome of the interactive loop. -/
structure LoopOut where
  config : Config
  exit : LoopExit
  saved : Option SaveOutput
  messages : List String
  deriving DecidableEq

/-- Mirrors `interactive_config_loop` (src/commands/collect.rs lines
180-214).  Each iteration validates the configuration, shows it, reads one
trimmed line and dispatches on `s`/`S` (save and stop), `q`/`Q` (stop),
`n`/`N` (add a setting) or an item update.  The `fuel` argument only bounds
the iteration count to make the recursion structural; `collect_user_input`
passes enough fuel that it is never exhausted. -/
def loop_go : Nat → Config → List String → Bool → Except String LoopOut
  | 0, c, _, _ => .ok { config := c, exit := .out_of_fuel, saved := none, messages := [] }
  | fuel + 1, c, inp, new_setting_added =>
    let c1 := validate_rpcfg_config c
    let shown := show_current_config c1 ++ [main_prompt]
    match inp with
    | [] => .ok { config := c1, exit := .out_of_input, saved := none, messages := shown }
    | line :: rest =>
      let u := str_trim line
      if u = "s" ∨ u = "S" then
        match save_configuration c1 new_setting_added with
        | .error e => .error e
        | .ok out =>
          .ok { config := c1, exit := .saved, saved := some out,
                messages := shown ++ ["Configuration saved."] }
      else if u = "q" ∨ u = "Q" then
        .ok { config := c1, exit := .quit, saved := none, messages := shown }
      else if u = "n" ∨ u = "N" then
        let r := add_new_setting c1 rest
        match loop_go fuel r.config r.remaining true with
        | .error e => .error e
        | .ok res => .ok { res with messages := shown ++ r.messages ++ res.messages }
      else
        let r := handle_item_update c1 u rest
        match loop_go fuel r.config r.remaining new_setting_added with
        | .error e => .error e
        | .ok res => .ok { res with messages := shown ++ r.messages ++ res.messages }

/-- The observable outcome of `collect_user_input`. -/
structure CollectResult where
  config : Config
  exit : LoopExit
  saved : Option SaveOutput
  messages : List String
  env_sets : List (String × String)
  result : CommandResult
  deriving DecidableEq

/-- Mirrors `collect_user_input` (src/commands/collect.rs lines 127-146):
initialize empty values with defaults, run the interactive loop, set the
environment variables for required items, and return a success
`CommandResult`. -/
def collect_user_input (c : Config) (inp : List String) : Except String CollectResult :=
  let c0 := initialize_config_values c
  match loop_go (inp.length + 1) c0 inp false with
  | .error e => .error e
  | .ok r =>
    .ok { config := r.config, exit := r.exit, saved := r.saved,
          messages := r.messages,
          env_sets := set_environment_variables r.config,
          result := { status := .ok, message := "Configuration collected successfully.",
                      env_file := env_output_uri r.config,
                      json_file := json_output_uri r.config } }

/-- The observable outcome of `execute`: `collect = none` means the
interactive loop was skipped entirely — nothing written to the output
stream, nothing read, no files written. -/
structure ExecuteOut where
  collect : Option CollectResult
  result : CommandResult
  deriving DecidableEq

/-- Mirrors `execute` (src/commands/collect.rs lines 37-79): the JSON output
path must be constructible; then, unless `ignore_timestamps` is set, an
existing output file at least as new as the input short-circuits the whole
collection with "Configuration is up to date.".  Modification times are
abstract naturals. -/
def execute (c : Config) (ignore_timestamps output_exists : Bool)
    (input_mtime output_mtime : Nat) (inp : List String) : Except String ExecuteOut :=
  match json_output_uri c with
  | none => .error "Failed to get JSON output path"
  | some output_path =>
    if ignore_timestamps = false ∧ output_exists = true ∧ input_mtime ≤ output_mtime then
      .ok { collect := none,
            result := { status := .ok, message := "Configuration is up to date.",
                        env_file := env_output_uri c,
                        json_file := some output_path } }
    else
      match collect_user_input c inp with
      | .error e => .error e
      | .ok r => .ok { collect := some r, result := r.result }


/-- Prefixes output messages onto a loop outcome; used to state how one loop
iteration relates to the rest of the run. -/
def prepend_msgs (ms : List String) : Except String LoopOut → Except String LoopOut
  | .error e => .error e
  | .ok r => .ok { r with messages := ms ++ r.messages }

/-- Key uniqueness across the reserved and user item sequences (the invariant
named by the spec data model). -/
abbrev keys_nodup (c : Config) : Prop :=
  ((c.rpcfg ++ c.app).map (fun i => i.key)).Nodup

/-- The property claim C1 asserts of the saved JSON object, following the
claim words: the flat object maps each item's lower-cased key to its string
value, and the bookkeeping key "is_test" is absent. -/
abbrev c1_claimed_json_map (c : Config) : Prop :=
  (∀ i ∈ c.rpcfg ++ c.app, map_lookup (flat_json c) (str_to_lower i.key) = some i.value) ∧
    map_lookup (flat_json c) "is_test" = none

/-- The property claim C2 asserts of the saved files, following the claim
words: every required-as-env item's upper-cased key appears in the env file
as `KEY=value` where the value is the one recorded for the item's key in the
JSON map. -/
abbrev c2_claimed_env_json (c : Config) : Prop :=
  ∀ i ∈ c.rpcfg ++ c.app, i.required_as_env = true →
    ∃ v, map_lookup (flat_json c) i.key = some v ∧
      (str_to_upper i.key ++ "=" ++ v) ∈ env_lines c

/-- A minimal configuration using local storage. -/
def cfg_local_min : Config :=
  { rpcfg := [stored_default_item], app := [], is_test := false, input_file := "" }

/-- A user item with an upper-case letter in its key. -/
def item_upper_key : ConfigItem :=
  { key := "A", description := "Upper-case key item", shellscript := "",
    default := "d", temp_environment_variable_name := "", required_as_env := false,
    value := "v" }

/-- Local-storage configuration holding `item_upper_key`. -/
def cfg_upper_key : Config :=
  { rpcfg := [stored_default_item], app := [item_upper_key], is_test := false,
    input_file := "" }

/-- A required-as-env user item whose key collides with the bookkeeping key
excluded from the JSON map. -/
def item_is_test_key : ConfigItem :=
  { key := "is_test", description := "Item keyed like the bookkeeping flag",
    shellscript := "", default := "d", temp_environment_variable_name := "",
    required_as_env := true, value := "v" }

/-- Local-storage configuration holding `item_is_test_key`. -/
def cfg_is_test_key : Config :=
  { rpcfg := [stored_default_item], app := [item_is_test_key], is_test := false,
    input_file := "" }

/-- Two plain user items with distinct keys. -/
def item_a : ConfigItem :=
  { key := "a", description := "Item a", shellscript := "", default := "1",
    temp_environment_variable_name := "", required_as_env := false, value := "1" }

def item_b : ConfigItem :=
  { key := "b", description := "Item b", shellscript := "", default := "2",
    temp_environment_variable_name := "", required_as_env := false, value := "2" }

/-- Local-storage configuration with two user items (so the flat JSON map has
more than one entry besides `stored`). -/
def cfg_two_items : Config :=
  { rpcfg := [stored_default_item], app := [item_a, item_b], is_test := false,
    input_file := "" }

/-- A required-as-env user item with a temp environment variable name. -/
def item_env : ConfigItem :=
  { key := "k1", description := "Item one", shellscript := "", default := "d1",
    temp_environment_variable_name := "T1", required_as_env := true, value := "v1" }

/-- Local-storage configuration holding `item_env`. -/
def cfg_env : Config :=
  { rpcfg := [stored_default_item], app := [item_env], is_test := false,
    input_file := "" }

/-- A configuration without any `"stored"` item. -/
def cfg_no_stored : Config :=
  { rpcfg := [], app := [], is_test := false, input_file := "" }

/-- The `"stored"` item set to keyvault storage. -/
def stored_keyvault_item : ConfigItem :=
  { key := "stored", description := "Storage type for configuration",
    shellscript := "", default := "local", temp_environment_variable_name := "",
    required_as_env := false, value := "keyvault" }

/-- A configuration whose `"stored"` item selects keyvault storage (a value
validation accepts). -/
def cfg_keyvault : Config :=
  { rpcfg := [stored_keyvault_item], app := [], is_test := false, input_file := "" }

/-- A user item keyed `"k"`. -/
def item_k : ConfigItem :=
  { key := "k", description := "Item k", shellscript := "", default := "d",
    temp_environment_variable_name := "", required_as_env := false, value := "v" }

/-- Local-storage configuration holding `item_k`, with all keys distinct. -/
def cfg_item_k : Config :=
  { rpcfg := [stored_default_item], app := [item_k], is_test := false,
    input_file := "" }

end Rpcfg

namespace Rpcfg

theorem init_item_key (i : ConfigItem) : (init_item i).key = i.key := by
  unfold init_item; split <;> rfl

theorem init_item_default (i : ConfigItem) : (init_item i).default = i.default := by
  unfold init_item; split <;> rfl

theorem init_item_of_value_ne (i : ConfigItem) (h : i.value ≠ "") : init_item i = i := by
  unfold init_item
  simp [h]

theorem init_item_idem (i : ConfigItem) : init_item (init_item i) = init_item i := by
  unfold init_item
  by_cases h : i.value == "" <;> simp [h]

theorem map_init_item_of_fixed (l : List ConfigItem) (h : ∀ i ∈ l, init_item i = i) :
    l.map init_item = l := by
  induction l with
  | nil => rfl
  | cons x xs ih =>
    simp only [List.map_cons]
    rw [h x (by simp), ih (fun i hi => h i (by simp [hi]))]

theorem keys_map_init (l : List ConfigItem) :
    (l.map init_item).map (fun i => i.key) = l.map (fun i => i.key) := by
  induction l with
  | nil => rfl
  | cons x xs ih => simp [init_item_key, ih]

theorem mem_map_init_fixed (l : List ConfigItem) (i : ConfigItem) (h : i ∈ l.map init_item) :
    init_item i = i := by
  obtain ⟨j, _, rfl⟩ := List.mem_map.mp h
  exact init_item_idem j

theorem fix_stored_eq_none (l : List ConfigItem) :
    fix_stored l = none ↔ l.find? (fun i => i.key == "stored") = none := by
  induction l with
  | nil => simp [fix_stored]
  | cons x xs ih =>
    unfold fix_stored
    by_cases h : x.key == "stored"
    · simp only [List.find?_cons, h, if_pos]
      constructor
      · intro hc; split at hc <;> exact absurd hc (by simp)
      · intro hc; exact absurd hc (by simp)
    · simp only [List.find?_cons, h, if_neg, Bool.false_eq_true, Option.map_eq_none']
      simpa [h] using ih

theorem fix_stored_of_find_valid (l : List ConfigItem) (j : ConfigItem)
    (hf : l.find? (fun i => i.key == "stored") = some j)
    (hv : j.value = "local" ∨ j.value = "keyvault") : fix_stored l = some l := by
  induction l with
  | nil => simp at hf
  | cons x xs ih =>
    unfold fix_stored
    by_cases h : x.key == "stored"
    · simp only [List.find?_cons, h] at hf
      cases hf
      rw [if_pos h, if_pos]
      rcases hv with hv | hv <;> simp [hv]
    · simp only [List.find?_cons, h] at hf
      rw [if_neg h, ih hf]
      rfl

theorem fix_stored_find_invalid (l : List ConfigItem) (j : ConfigItem)
    (hf : l.find? (fun i => i.key == "stored") = some j)
    (hv : ¬(j.value = "local" ∨ j.value = "keyvault")) :
    ∃ l', fix_stored l = some l' ∧
      l'.find? (fun i => i.key == "stored") = some { j with value := "local" } := by
  induction l with
  | nil => simp at hf
  | cons x xs ih =>
    unfold fix_stored
    by_cases h : x.key == "stored"
    · simp only [List.find?_cons, h] at hf
      cases hf
      rw [if_pos h, if_neg (by push_neg at hv; simp [hv.1, hv.2])]
      refine ⟨_, rfl, ?_⟩
      simp [List.find?_cons, h]
    · simp only [List.find?_cons, h] at hf
      obtain ⟨l'', hfix, hfind⟩ := ih hf
      rw [if_neg h, hfix]
      refine ⟨x :: l'', rfl, ?_⟩
      simp only [List.find?_cons, h]
      exact hfind

theorem fix_stored_keys (l l' : List ConfigItem) (h : fix_stored l = some l') :
    l'.map (fun i => i.key) = l.map (fun i => i.key) := by
  induction l generalizing l' with
  | nil => simp [fix_stored] at h
  | cons x xs ih =>
    unfold fix_stored at h
    by_cases hk : x.key == "stored"
    · rw [if_pos hk] at h
      split at h <;> cases h <;> simp
    · rw [if_neg hk] at h
      cases hfix : fix_stored xs with
      | none => rw [hfix] at h; simp at h
      | some ys =>
        rw [hfix] at h
        cases h
        simp [ih ys hfix]

theorem fix_stored_mem (l l' : List ConfigItem) (h : fix_stored l = some l') :
    ∀ i ∈ l', i ∈ l ∨ ∃ j ∈ l, i = { j with value := "local" } := by
  induction l generalizing l' with
  | nil => simp [fix_stored] at h
  | cons x xs ih =>
    unfold fix_stored at h
    by_cases hk : x.key == "stored"
    · rw [if_pos hk] at h
      split at h <;> cases h <;> intro i hi <;> rcases List.mem_cons.mp hi with rfl | hi
      · exact Or.inl (by simp)
      · exact Or.inl (by simp [hi])
      · exact Or.inr ⟨x, by simp⟩
      · exact Or.inl (by simp [hi])
    · rw [if_neg hk] at h
      cases hfix : fix_stored xs with
      | none => rw [hfix] at h; simp at h
      | some ys =>
        rw [hfix] at h
        cases h
        intro i hi
        rcases List.mem_cons.mp hi with rfl | hi
        · exact Or.inl (by simp)
        · rcases ih ys hfix i hi with hm | ⟨j, hj, rfl⟩
          · exact Or.inl (by simp [hm])
          · exact Or.inr ⟨j, by simp [hj]⟩

theorem fix_stored_post (l l' : List ConfigItem) (h : fix_stored l = some l') :
    ∃ j, l'.find? (fun i => i.key == "stored") = some j ∧
      (j.value = "local" ∨ j.value = "keyvault") := by
  induction l generalizing l' with
  | nil => simp [fix_stored] at h
  | cons x xs ih =>
    unfold fix_stored at h
    by_cases hk : x.key == "stored"
    · rw [if_pos hk] at h
      split at h <;> cases h
      · next hval =>
        refine ⟨x, by simp [List.find?_cons, hk], ?_⟩
        rcases Bool.or_eq_true_iff.mp hval with hv | hv
        · exact Or.inl (by simpa using hv)
        · exact Or.inr (by simpa using hv)
      · exact ⟨{ x with value := "local" }, by simp [List.find?_cons, hk], Or.inl rfl⟩
    · rw [if_neg hk] at h
      cases hfix : fix_stored xs with
      | none => rw [hfix] at h; simp at h
      | some ys =>
        rw [hfix] at h
        cases h
        obtain ⟨j, hfind, hv⟩ := ih ys hfix
        exact ⟨j, by simp only [List.find?_cons, hk]; exact hfind, hv⟩

end Rpcfg

namespace Rpcfg

theorem validate_eq (c : Config) :
    validate_rpcfg_config c =
      match fix_stored (c.rpcfg.map init_item) with
      | some l => { c with rpcfg := l }
      | none => { c with rpcfg := c.rpcfg.map init_item ++ [stored_default_item] } := rfl

theorem validate_app (c : Config) : (validate_rpcfg_config c).app = c.app := by
  rw [validate_eq]
  cases h : fix_stored (c.rpcfg.map init_item) <;> simp

theorem validate_is_test (c : Config) : (validate_rpcfg_config c).is_test = c.is_test := by
  rw [validate_eq]
  cases h : fix_stored (c.rpcfg.map init_item) <;> simp

theorem validate_input_file (c : Config) :
    (validate_rpcfg_config c).input_file = c.input_file := by
  rw [validate_eq]
  cases h : fix_stored (c.rpcfg.map init_item) <;> simp

theorem validate_init_fixed (c : Config) :
    ∀ i ∈ (validate_rpcfg_config c).rpcfg, init_item i = i := by
  rw [validate_eq]
  cases h : fix_stored (c.rpcfg.map init_item) with
  | some l =>
    simp only
    intro i hi
    rcases fix_stored_mem _ _ h i hi with hm | ⟨j, _, rfl⟩
    · exact mem_map_init_fixed _ _ hm
    · exact init_item_of_value_ne _ (by simp)
  | none =>
    simp only
    intro i hi
    rcases List.mem_append.mp hi with hm | hm
    · exact mem_map_init_fixed _ _ hm
    · rw [List.mem_singleton.mp hm]
      exact init_item_of_value_ne _ (by simp [stored_default_item])

theorem validate_rpcfg_map_init (c : Config) :
    (validate_rpcfg_config c).rpcfg.map init_item = (validate_rpcfg_config c).rpcfg :=
  map_init_item_of_fixed _ (validate_init_fixed c)

theorem validate_first_stored_valid (c : Config) :
    ∃ j, (validate_rpcfg_config c).rpcfg.find? (fun i => i.key == "stored") = some j ∧
      (j.value = "local" ∨ j.value = "keyvault") := by
  rw [validate_eq]
  cases h : fix_stored (c.rpcfg.map init_item) with
  | some l =>
    simp only
    exact fix_stored_post _ _ h
  | none =>
    simp only
    refine ⟨stored_default_item, ?_, Or.inl rfl⟩
    rw [List.find?_append, (fix_stored_eq_none _).mp h]
    simp [List.find?_cons, stored_default_item]

theorem validate_idem (c : Config) :
    validate_rpcfg_config (validate_rpcfg_config c) = validate_rpcfg_config c := by
  obtain ⟨j, hfind, hv⟩ := validate_first_stored_valid c
  rw [validate_eq (validate_rpcfg_config c), validate_rpcfg_map_init,
    fix_stored_of_find_valid _ _ hfind hv]

theorem initialize_of_fixed (v : Config) (h1 : ∀ i ∈ v.rpcfg, init_item i = i)
    (h2 : ∀ i ∈ v.app, init_item i = i) : initialize_config_values v = v := by
  unfold initialize_config_values
  rw [map_init_item_of_fixed _ h1, map_init_item_of_fixed _ h2]

theorem initialize_validate_stable (c : Config) :
    initialize_config_values (validate_rpcfg_config (initialize_config_values c)) =
      validate_rpcfg_config (initialize_config_values c) := by
  apply initialize_of_fixed
  · exact validate_init_fixed _
  · rw [validate_app]
    intro i hi
    exact mem_map_init_fixed c.app i (by simpa [initialize_config_values] using hi)

end Rpcfg

namespace Rpcfg

theorem map_lookup_cons (x : String × String) (m : List (String × String)) (k : String) :
    map_lookup (x :: m) k = if x.1 == k then some x.2 else map_lookup m k := by
  unfold map_lookup
  by_cases h : x.1 == k <;> simp [List.find?_cons, h]

theorem map_lookup_insert (m : List (String × String)) (k v k' : String) :
    map_lookup (hashmap_insert m k v) k' = if k' = k then some v else map_lookup m k' := by
  induction m with
  | nil =>
    unfold hashmap_insert
    by_cases h : k' = k <;> simp [map_lookup_cons, h]
    · simp [Ne.symm h]
  | cons p rest ih =>
    unfold hashmap_insert
    by_cases hp : p.1 == k
    · rw [if_pos hp]
      replace hp : p.1 = k := by simpa using hp
      by_cases h : k' = k
      · simp [map_lookup_cons, h]
      · simp [map_lookup_cons, h, Ne.symm h, hp]
    · rw [if_neg hp]
      replace hp : p.1 ≠ k := by simpa using hp
      by_cases hq : p.1 = k'
      · have hne : k' ≠ k := fun hh => hp (hq.trans hh)
        simp [map_lookup_cons, hq, hne]
      · simp [map_lookup_cons, hq, ih]

theorem flat_fold_lookup_ne (items : List ConfigItem) (m : List (String × String))
    (k : String) (hk : k ≠ "is_test") :
    map_lookup (items.foldl flat_step m) k =
      match items.reverse.find? (fun i => i.key == k) with
      | some i => some i.value
      | none => map_lookup m k := by
  induction items generalizing m with
  | nil => simp
  | cons j rest ih =>
    rw [List.foldl_cons, ih (flat_step m j), List.reverse_cons, List.find?_append]
    cases hf : rest.reverse.find? (fun i => i.key == k) with
    | some i => rw [Option.or_some]
    | none =>
      rw [Option.none_or]
      by_cases hj : j.key = k
      · simp only [List.find?_cons, hj, beq_self_eq_true]
        unfold flat_step
        rw [if_neg (by simp [hj, hk]), hj, map_lookup_insert]
        simp
      · have hj' : (j.key == k) = false := by simpa using hj
        simp only [List.find?_cons, hj']
        unfold flat_step
        by_cases ht : j.key == "is_test"
        · rw [if_pos ht]
          rfl
        · rw [if_neg ht, map_lookup_insert, if_neg (Ne.symm hj)]
          rfl

theorem flat_fold_lookup_is_test (items : List ConfigItem) (m : List (String × String)) :
    map_lookup (items.foldl flat_step m) "is_test" = map_lookup m "is_test" := by
  induction items generalizing m with
  | nil => rfl
  | cons j rest ih =>
    rw [List.foldl_cons, ih]
    unfold flat_step
    by_cases ht : j.key == "is_test"
    · rw [if_pos ht]
    · rw [if_neg ht, map_lookup_insert, if_neg]
      intro hh
      exact ht (by rw [← hh]; exact beq_self_eq_true _)

theorem flat_json_lookup_is_test (c : Config) :
    map_lookup (flat_json c) "is_test" = none := by
  unfold flat_json
  rw [flat_fold_lookup_is_test]
  rfl

theorem find?_key_of_count_one (l : List ConfigItem) (i : ConfigItem)
    (hc : (l.map (fun x => x.key)).count i.key = 1) (hm : i ∈ l) :
    l.find? (fun x => x.key == i.key) = some i := by
  induction l with
  | nil => simp at hm
  | cons x xs ih =>
    rcases List.mem_cons.mp hm with rfl | hm'
    · simp [List.find?_cons]
    · by_cases hx : x.key == i.key
      · exfalso
        have h1 : 0 < (xs.map (fun x => x.key)).count i.key := by
          rw [List.count_pos_iff]
          exact List.mem_map.mpr ⟨i, hm', rfl⟩
        rw [List.map_cons, List.count_cons, if_pos hx] at hc
        omega
      · have hx' : (x.key == i.key) = false := by simpa using hx
        simp only [List.find?_cons, hx']
        apply ih _ hm'
        rw [List.map_cons, List.count_cons, if_neg (by simp [hx'])] at hc
        simpa using hc

theorem flat_json_lookup_unique (c : Config) (i : ConfigItem)
    (hm : i ∈ c.rpcfg ++ c.app) (hk : i.key ≠ "is_test")
    (hc : (((c.rpcfg ++ c.app)).map (fun x => x.key)).count i.key = 1) :
    map_lookup (flat_json c) i.key = some i.value := by
  unfold flat_json
  rw [flat_fold_lookup_ne _ _ _ hk]
  have hfind : (c.rpcfg ++ c.app).reverse.find? (fun x => x.key == i.key) = some i := by
    apply find?_key_of_count_one
    · rw [List.map_reverse, List.count_reverse]
      exact hc
    · exact List.mem_reverse.mpr hm
  rw [hfind]

theorem env_lines_eq (c : Config) :
    env_lines c =
      ((c.rpcfg ++ c.app).filter (fun i => i.required_as_env)).map
        (fun i => str_to_upper i.key ++ "=" ++ i.value) := by
  unfold env_lines
  generalize c.rpcfg ++ c.app = l
  induction l with
  | nil => rfl
  | cons x xs ih =>
    by_cases h : x.required_as_env <;>
      simp [List.filterMap_cons, List.filter_cons, h, ih]

theorem env_line_mem (c : Config) (i : ConfigItem) (hm : i ∈ c.rpcfg ++ c.app)
    (hr : i.required_as_env = true) :
    (str_to_upper i.key ++ "=" ++ i.value) ∈ env_lines c := by
  unfold env_lines
  exact List.mem_filterMap.mpr ⟨i, hm, by simp [hr]⟩

end Rpcfg

namespace Rpcfg

theorem set_value_at_keys (l : List ConfigItem) (n : Nat) (v : String) :
    (set_value_at l n v).map (fun i => i.key) = l.map (fun i => i.key) := by
  induction l generalizing n with
  | nil => rfl
  | cons x xs ih =>
    cases n with
    | zero => simp [set_value_at]
    | succ m => simp [set_value_at, ih]

theorem update_item_keys (c : Config) (n : Nat) (v : String) :
    ((update_item c n v).rpcfg ++ (update_item c n v).app).map (fun i => i.key) =
      (c.rpcfg ++ c.app).map (fun i => i.key) := by
  unfold update_item
  by_cases h : n < c.rpcfg.length <;> simp [h, set_value_at_keys]

theorem initialize_keys (c : Config) :
    ((initialize_config_values c).rpcfg ++ (initialize_config_values c).app).map
        (fun i => i.key) =
      (c.rpcfg ++ c.app).map (fun i => i.key) := by
  unfold initialize_config_values
  simp only [List.map_append]
  rw [keys_map_init, keys_map_init]

theorem initialize_rpcfg_get (c : Config) (n : Nat) :
    (initialize_config_values c).rpcfg[n]? = (c.rpcfg[n]?).map init_item := by
  unfold initialize_config_values
  simp [List.getElem?_map]

theorem initialize_app_get (c : Config) (n : Nat) :
    (initialize_config_values c).app[n]? = (c.app[n]?).map init_item := by
  unfold initialize_config_values
  simp [List.getElem?_map]

theorem handle_item_update_out_of_range (c : Config) (u : String) (inp : List String)
    (k : Nat) (hp : parse_usize u = some k)
    (hk : ¬(0 < k ∧ k ≤ c.rpcfg.length + c.app.length)) :
    handle_item_update c u inp =
      { config := c, remaining := inp,
        messages := ["Invalid item number. Please try again."] } := by
  unfold handle_item_update
  rw [hp]
  simp only [if_neg hk]

theorem handle_item_update_no_parse (c : Config) (u : String) (inp : List String)
    (hp : parse_usize u = none) :
    handle_item_update c u inp =
      { config := c, remaining := inp,
        messages := ["Invalid input. Please try again."] } := by
  unfold handle_item_update
  rw [hp]

theorem loop_go_step_other (fuel : Nat) (c : Config) (line : String) (rest : List String)
    (b : Bool)
    (hs : ¬(str_trim line = "s" ∨ str_trim line = "S"))
    (hq : ¬(str_trim line = "q" ∨ str_trim line = "Q"))
    (hn : ¬(str_trim line = "n" ∨ str_trim line = "N")) :
    loop_go (fuel + 1) c (line :: rest) b =
      prepend_msgs
        (show_current_config (validate_rpcfg_config c) ++ [main_prompt] ++
          (handle_item_update (validate_rpcfg_config c) (str_trim line) rest).messages)
        (loop_go fuel
          (handle_item_update (validate_rpcfg_config c) (str_trim line) rest).config
          (handle_item_update (validate_rpcfg_config c) (str_trim line) rest).remaining b) := by
  conv_lhs => unfold loop_go
  dsimp only
  rw [if_neg hs, if_neg hq, if_neg hn]
  cases hres : loop_go fuel
      (handle_item_update (validate_rpcfg_config c) (str_trim line) rest).config
      (handle_item_update (validate_rpcfg_config c) (str_trim line) rest).remaining b with
  | error e => simp [prepend_msgs, hres]
  | ok r => simp [prepend_msgs, hres]

end Rpcfg

namespace Rpcfg

theorem filter_head?_eq_find? (p : ConfigItem → Bool) (l : List ConfigItem) :
    (l.filter p).head? = l.find? p := by
  induction l with
  | nil => rfl
  | cons x xs ih =>
    by_cases h : p x <;> simp [List.filter_cons, List.find?_cons, h, ih]

theorem find?_stored_map_init (l : List ConfigItem) :
    (l.map init_item).find? (fun i => i.key == "stored") =
      (l.find? (fun i => i.key == "stored")).map init_item := by
  induction l with
  | nil => rfl
  | cons x xs ih =>
    by_cases h : x.key == "stored" <;>
      simp [List.find?_cons, init_item_key, h, ih]

/-- Claim C4: at the start of every iteration the loop validates the
configuration (see `loop_go`); after `validate_rpcfg_config` the reserved
items contain a `"stored"` item whose value lies in the accepted enumeration;
when no `"stored"` item existed one is added with value `"local"`; and when
the first `"stored"` item's value — after the empty-value defaulting that
validation performs first — is not an accepted value, it is coerced to
`"local"`. -/
theorem c4_stored_invariant (c : Config) :
    (∃ j, (validate_rpcfg_config c).rpcfg.find? (fun i => i.key == "stored") = some j ∧
        (j.value = "local" ∨ j.value = "keyvault")) ∧
    (c.rpcfg.find? (fun i => i.key == "stored") = none →
      (validate_rpcfg_config c).rpcfg.find? (fun i => i.key == "stored") =
        some stored_default_item) ∧
    (∀ j, (c.rpcfg.map init_item).find? (fun i => i.key == "stored") = some j →
      j.value ≠ "local" → j.value ≠ "keyvault" →
      (validate_rpcfg_config c).rpcfg.find? (fun i => i.key == "stored") =
        some { j with value := "local" }) := by
  refine ⟨validate_first_stored_valid c, ?_, ?_⟩
  · intro hnone
    have hnone' : (c.rpcfg.map init_item).find? (fun i => i.key == "stored") = none := by
      rw [find?_stored_map_init, hnone]
      rfl
    rw [validate_eq, (fix_stored_eq_none _).mpr hnone']
    simp only
    rw [List.find?_append, hnone', Option.none_or]
    simp [List.find?_cons, stored_default_item]
  · intro j hfind hv1 hv2
    obtain ⟨l', hfix, hfind'⟩ :=
      fix_stored_find_invalid _ _ hfind (by rintro (h | h) <;> [exact hv1 h; exact hv2 h])
    rw [validate_eq, hfix]
    exact hfind'

/-- Witness for C4: a configuration without a `"stored"` item gets one with
value `"local"` added by validation. -/
theorem c4_witness :
    (validate_rpcfg_config cfg_no_stored).rpcfg.find? (fun i => i.key == "stored") =
      some stored_default_item :=
  (c4_stored_invariant cfg_no_stored).2.1 rfl

/-- Claim C6: initialization (`initialize_config_values`) gives every item
with an empty value its default as value, keeps every non-empty value, and
never modifies the stored default, in both item sequences. -/
theorem c6_initialize_defaults (c : Config) (n : Nat) :
    (∀ i i', c.rpcfg[n]? = some i →
      (initialize_config_values c).rpcfg[n]? = some i' →
      i'.default = i.default ∧
        i'.value = (if i.value = "" then i.default else i.value)) ∧
    (∀ i i', c.app[n]? = some i →
      (initialize_config_values c).app[n]? = some i' →
      i'.default = i.default ∧
        i'.value = (if i.value = "" then i.default else i.value)) := by
  have hval : ∀ i : ConfigItem,
      (init_item i).value = (if i.value = "" then i.default else i.value) := by
    intro i
    unfold init_item
    by_cases h : i.value = "" <;> simp [h]
  constructor <;> intro i i' h1 h2
  · rw [initialize_rpcfg_get, h1] at h2
    cases h2
    exact ⟨init_item_default i, hval i⟩
  · rw [initialize_app_get, h1] at h2
    cases h2
    exact ⟨init_item_default i, hval i⟩

/-- Witness for C6 at a concrete configuration and item. -/
theorem c6_witness :
    (init_item item_env).default = item_env.default ∧
    (init_item item_env).value =
      (if item_env.value = "" then item_env.default else item_env.value) :=
  (c6_initialize_defaults cfg_env 0).2 item_env (init_item item_env) rfl rfl

/-- Claim C7: with `ignore_timestamps` false, an existing output file and an
output modification time newer than the input's, `execute` skips the whole
interactive loop (`collect = none`: nothing written, nothing read, no files
written) and returns Ok "Configuration is up to date.". -/
theorem c7_timestamp_short_circuit (c : Config) (p : String)
    (input_mtime output_mtime : Nat) (inp : List String)
    (hp : json_output_uri c = some p) (hm : input_mtime < output_mtime) :
    execute c false true input_mtime output_mtime inp =
      Except.ok { collect := none,
                  result := { status := Status.ok,
                              message := "Configuration is up to date.",
                              env_file := env_output_uri c,
                              json_file := some p } } := by
  unfold execute
  rw [hp]
  dsimp only
  rw [if_pos ⟨rfl, rfl, Nat.le_of_lt hm⟩]

/-- Witness for C7 at a concrete configuration and timestamps. -/
theorem c7_witness :
    execute cfg_local_min false true 0 1 [] =
      Except.ok { collect := none,
                  result := { status := Status.ok,
                              message := "Configuration is up to date.",
                              env_file := env_output_uri cfg_local_min,
                              json_file :=
                                some "<rp>/default_project/default_config-default_env.json" } } :=
  c7_timestamp_short_circuit cfg_local_min
    "<rp>/default_project/default_config-default_env.json" 0 1 [] rfl (by decide)

/-- Claim C9: a configuration whose first `"stored"` item has value
`"keyvault"` — a value validation leaves untouched — makes
`save_configuration` fail, because `base_output_dir` is only defined for
local storage; conversely a successful save implies the effective stored
value is `"local"`. -/
theorem c9_keyvault_save_error (c : Config) (b : Bool) :
    ((∃ j, (c.rpcfg ++ c.app).find? (fun i => i.key == "stored") = some j ∧
        j.value = "keyvault") →
      save_configuration c b = Except.error "Failed to get base output directory") ∧
    (∀ out, save_configuration c b = Except.ok out →
      (((c.get_settings "stored").head?.map (fun i => i.value)).getD "local") = "local") ∧
    (∀ j, c.rpcfg.find? (fun i => i.key == "stored") = some j → j.value = "keyvault" →
      (validate_rpcfg_config c).rpcfg.find? (fun i => i.key == "stored") = some j) := by
  refine ⟨?_, ?_, ?_⟩
  · rintro ⟨j, hfind, hv⟩
    unfold save_configuration base_output_dir
    unfold Config.get_settings
    rw [filter_head?_eq_find?, hfind]
    have hval : (Option.map (fun item => item.value) (some j)).getD "local" = "keyvault" := by
      simp [hv]
    rw [hval]
    rfl
  · intro out hok
    unfold save_configuration base_output_dir at hok
    by_cases h : (((c.get_settings "stored").head?.map (fun i => i.value)).getD "local") = "local"
    · exact h
    · rw [if_neg (by simpa using h)] at hok
      cases hok
  · intro j hfind hv
    have hj : init_item j = j := init_item_of_value_ne j (by simp [hv])
    have h1 : (c.rpcfg.map init_item).find? (fun i => i.key == "stored") = some j := by
      rw [find?_stored_map_init, hfind]
      simp [hj]
    rw [validate_eq, fix_stored_of_find_valid _ _ h1 (Or.inr hv)]
    exact h1

/-- Witness for C9: keyvault storage makes saving fail. -/
theorem c9_witness :
    save_configuration cfg_keyvault false =
      Except.error "Failed to get base output directory" :=
  (c9_keyvault_save_error cfg_keyvault false).1 ⟨stored_keyvault_item, rfl, rfl⟩

end Rpcfg

namespace Rpcfg

/-- Claim C5: a main-prompt input whose trimmed form is none of the command
letters leaves every item's value unchanged and keeps the loop running: an
index outside `1..=total` (for the `usize` parse the code performs) emits
"Invalid item number. Please try again.", unparseable input emits
"Invalid input. Please try again.", and in both cases the configuration and
the remaining input are untouched while the loop recurses. -/
theorem c5_invalid_input (fuel : Nat) (c : Config) (line : String)
    (rest : List String) (b : Bool)
    (hcmd : str_trim line ∉ (["s", "S", "n", "N", "q", "Q"] : List String)) :
    (∀ k, parse_usize (str_trim line) = some k →
      ¬(0 < k ∧ k ≤ (validate_rpcfg_config c).rpcfg.length +
          (validate_rpcfg_config c).app.length) →
      handle_item_update (validate_rpcfg_config c) (str_trim line) rest =
        { config := validate_rpcfg_config c, remaining := rest,
          messages := ["Invalid item number. Please try again."] }) ∧
    (parse_usize (str_trim line) = none →
      handle_item_update (validate_rpcfg_config c) (str_trim line) rest =
        { config := validate_rpcfg_config c, remaining := rest,
          messages := ["Invalid input. Please try again."] }) ∧
    loop_go (fuel + 1) c (line :: rest) b =
      prepend_msgs
        (show_current_config (validate_rpcfg_config c) ++ [main_prompt] ++
          (handle_item_update (validate_rpcfg_config c) (str_trim line) rest).messages)
        (loop_go fuel
          (handle_item_update (validate_rpcfg_config c) (str_trim line) rest).config
          (handle_item_update (validate_rpcfg_config c) (str_trim line) rest).remaining
          b) := by
  simp only [List.mem_cons, List.mem_singleton, not_or] at hcmd
  obtain ⟨h1, h2, h3, h4, h5, h6⟩ := hcmd
  refine ⟨?_, ?_, ?_⟩
  · intro k hp hk
    exact handle_item_update_out_of_range _ _ _ k hp hk
  · intro hp
    exact handle_item_update_no_parse _ _ _ hp
  · exact loop_go_step_other fuel c line rest b (by tauto) (by tauto) (by tauto)

/-- Witness for C5: non-numeric input at a concrete configuration. -/
theorem c5_witness :
    handle_item_update (validate_rpcfg_config cfg_local_min) (str_trim "zzz") [] =
      { config := validate_rpcfg_config cfg_local_min, remaining := [],
        messages := ["Invalid input. Please try again."] } :=
  (c5_invalid_input 0 cfg_local_min "zzz" [] false (by decide)).2.1 rfl

/-- Claim C10: whenever `collect_user_input` returns after the user quit with
`q` (no save), the result is still Ok with message "Configuration collected
successfully." and the process environment receives a variable for every
required-as-env item with a non-empty temp environment variable name. -/
theorem c10_quit_still_succeeds (c : Config) (inp : List String) (r : CollectResult)
    (hr : collect_user_input c inp = Except.ok r) (hq : r.exit = LoopExit.quit) :
    r.result.status = Status.ok ∧
    r.result.message = "Configuration collected successfully." ∧
    (∀ i ∈ r.config.rpcfg ++ r.config.app, i.required_as_env = true →
      i.temp_environment_variable_name ≠ "" →
      (i.temp_environment_variable_name, i.value) ∈ r.env_sets) := by
  cases hloop : loop_go (inp.length + 1) (initialize_config_values c) inp false with
  | error e =>
    simp only [collect_user_input, hloop] at hr
    cases hr
  | ok lr =>
    simp only [collect_user_input, hloop] at hr
    cases hr
    refine ⟨rfl, rfl, ?_⟩
    intro i hm hreq hname
    unfold set_environment_variables
    exact List.mem_filterMap.mpr ⟨i, hm, by simp [hreq, hname]⟩

/-- Witness for C10: quitting without saving at a concrete configuration
still sets the environment variable and reports success. -/
theorem c10_witness :
    ∃ r, collect_user_input cfg_env ["q"] = Except.ok r ∧
      r.result.status = Status.ok ∧
      r.result.message = "Configuration collected successfully." ∧
      (item_env.temp_environment_variable_name, item_env.value) ∈ r.env_sets := by
  refine ⟨_, rfl, ?_, ?_, ?_⟩
  · exact (c10_quit_still_succeeds cfg_env ["q"] _ rfl rfl).1
  · exact (c10_quit_still_succeeds cfg_env ["q"] _ rfl rfl).2.1
  · exact (c10_quit_still_succeeds cfg_env ["q"] _ rfl rfl).2.2 item_env (by decide) rfl
      (by decide)

/-- Counterexample to claim C1 as stated: the code inserts keys into the flat
JSON map unchanged, not lower-cased, so for a configuration with an
upper-case key the saved map has no entry at the lower-cased key. -/
theorem c1_counterexample :
    (∃ out, save_configuration cfg_upper_key false = Except.ok out) ∧
    ¬ c1_claimed_json_map cfg_upper_key := by
  refine ⟨⟨_, rfl⟩, ?_⟩
  decide

/-- Claim C1 as amended: the saved flat JSON object maps each item's key —
written exactly as stored, not lower-cased — to the item's string value,
for configurations with pairwise distinct keys (the data-model invariant),
and the bookkeeping key "is_test" never appears in it. -/
theorem c1_amended (c : Config) (b : Bool) (out : SaveOutput)
    (hs : save_configuration c b = Except.ok out) (hnd : keys_nodup c) :
    (∀ i ∈ c.rpcfg ++ c.app, i.key ≠ "is_test" →
      map_lookup out.json_entries i.key = some i.value) ∧
    map_lookup out.json_entries "is_test" = none := by
  have hout : out.json_entries = flat_json c := by
    unfold save_configuration at hs
    cases hb : base_output_dir c with
    | none => rw [hb] at hs; cases hs
    | some p => rw [hb] at hs; cases hs; rfl
  rw [hout]
  refine ⟨?_, flat_json_lookup_is_test c⟩
  intro i hm hk
  exact flat_json_lookup_unique c i hm hk
    (List.count_eq_one_of_mem hnd (List.mem_map.mpr ⟨i, hm, rfl⟩))

/-- Witness for the amended C1: the upper-case key appears as-is in the saved
map and "is_test" is absent. -/
theorem c1_amended_witness :
    map_lookup (flat_json cfg_upper_key) "A" = some "v" ∧
    map_lookup (flat_json cfg_upper_key) "is_test" = none := by
  have h := c1_amended cfg_upper_key false
    { json_entries := flat_json cfg_upper_key,
      env_file_content := env_content cfg_upper_key,
      input_file_written := false } rfl (by decide)
  exact ⟨h.1 item_upper_key (by decide) (by decide), h.2⟩

/-- Counterexample to claim C2 as stated: an item keyed "is_test" with
`required_as_env` gets an env-file line, but the JSON map records no value
for that key, so the env value cannot equal "the value recorded for that key
in the JSON output map". -/
theorem c2_counterexample :
    (∃ out, save_configuration cfg_is_test_key false = Except.ok out) ∧
    ¬ c2_claimed_env_json cfg_is_test_key := by
  refine ⟨⟨_, rfl⟩, ?_⟩
  intro h
  obtain ⟨v, hv, -⟩ := h item_is_test_key (by decide) rfl
  rw [show item_is_test_key.key = "is_test" from rfl, flat_json_lookup_is_test] at hv
  cases hv

/-- Claim C2 as amended: the env file consists of exactly one
`UPPERCASE_KEY=value` line per required-as-env item (items with
`required_as_env` false contribute no line), with the item's own value; when
the item's key occurs only once in the configuration and is not the excluded
bookkeeping key "is_test", that value is also the one recorded for the key
in the JSON map. -/
theorem c2_amended (c : Config) (b : Bool) (out : SaveOutput)
    (hs : save_configuration c b = Except.ok out) :
    out.env_file_content = env_content c ∧
    env_lines c = ((c.rpcfg ++ c.app).filter (fun i => i.required_as_env)).map
        (fun i => str_to_upper i.key ++ "=" ++ i.value) ∧
    (∀ i ∈ c.rpcfg ++ c.app, i.required_as_env = true →
      (str_to_upper i.key ++ "=" ++ i.value) ∈ env_lines c ∧
      (i.key ≠ "is_test" →
        ((c.rpcfg ++ c.app).map (fun x => x.key)).count i.key = 1 →
        map_lookup out.json_entries i.key = some i.value)) := by
  have hout : out.json_entries = flat_json c ∧ out.env_file_content = env_content c := by
    unfold save_configuration at hs
    cases hb : base_output_dir c with
    | none => rw [hb] at hs; cases hs
    | some p => rw [hb] at hs; cases hs; exact ⟨rfl, rfl⟩
  refine ⟨hout.2, env_lines_eq c, ?_⟩
  intro i hm hreq
  refine ⟨env_line_mem c i hm hreq, ?_⟩
  intro hk hc
  rw [hout.1]
  exact flat_json_lookup_unique c i hm hk hc

/-- Witness for the amended C2 at a concrete configuration. -/
theorem c2_amended_witness :
    (str_to_upper item_env.key ++ "=" ++ item_env.value) ∈ env_lines cfg_env ∧
    map_lookup (flat_json cfg_env) item_env.key = some item_env.value := by
  have h := (c2_amended cfg_env false
    { json_entries := flat_json cfg_env, env_file_content := env_content cfg_env,
      input_file_written := false } rfl).2.2 item_env (by decide) rfl
  exact ⟨h.1, h.2 (by decide) (by decide)⟩

end Rpcfg

namespace Rpcfg

theorem add_new_setting_config (c : Config) (inp : List String) :
    (add_new_setting c inp).config =
      { c with app := c.app ++
        [{ key := str_trim (read_line inp).1,
           description := str_trim (read_line (read_line inp).2).1,
           shellscript := "",
           default := str_trim (read_line (read_line (read_line inp).2).2).1,
           temp_environment_variable_name :=
             str_trim (read_line (read_line (read_line (read_line inp).2).2).2).1,
           required_as_env :=
             str_to_lower
               (str_trim (read_line (read_line (read_line (read_line (read_line inp).2).2).2).2).1) == "y",
           value := str_trim (read_line (read_line (read_line inp).2).2).1 }] } := rfl

/-- Counterexample to claim C8 as stated: `add_new_setting` performs no
duplicate-key check, so entering an existing key breaks key uniqueness. -/
theorem c8_counterexample :
    keys_nodup cfg_item_k ∧
    ¬ keys_nodup (add_new_setting cfg_item_k ["k", "Duplicate", "dv", "", "n"]).config := by
  constructor
  · decide
  · decide

/-- Claim C8 as amended: initialization and item update always preserve key
uniqueness; validation preserves it provided the key `"stored"` already
occurs among the reserved items or does not occur among the user items; and
adding a new setting preserves it provided the key the user enters does not
already occur in the configuration. -/
theorem c8_amended :
    (∀ c : Config, keys_nodup c → keys_nodup (initialize_config_values c)) ∧
    (∀ c : Config, keys_nodup c →
      ((∃ i ∈ c.rpcfg, i.key = "stored") ∨ (∀ i ∈ c.app, i.key ≠ "stored")) →
      keys_nodup (validate_rpcfg_config c)) ∧
    (∀ (c : Config) (n : Nat) (v : String), keys_nodup c →
      keys_nodup (update_item c n v)) ∧
    (∀ (c : Config) (inp : List String), keys_nodup c →
      (∀ i ∈ c.rpcfg ++ c.app, i.key ≠ str_trim (read_line inp).1) →
      keys_nodup (add_new_setting c inp).config) := by
  refine ⟨?_, ?_, ?_, ?_⟩
  · intro c h
    show (((initialize_config_values c).rpcfg ++
        (initialize_config_values c).app).map (fun i => i.key)).Nodup
    rw [List.map_append, initialize_config_values]
    simp only
    rw [keys_map_init, keys_map_init, ← List.map_append]
    exact h
  · intro c h hside
    show (((validate_rpcfg_config c).rpcfg ++
        (validate_rpcfg_config c).app).map (fun i => i.key)).Nodup
    rw [validate_eq]
    cases hfix : fix_stored (c.rpcfg.map init_item) with
    | some l =>
      dsimp only
      rw [List.map_append, fix_stored_keys _ _ hfix, keys_map_init, ← List.map_append]
      exact h
    | none =>
      dsimp only
      have hnos : ∀ i ∈ c.rpcfg, i.key ≠ "stored" := by
        intro i hi heq
        have hall := (fix_stored_eq_none _).mp hfix
        rw [List.find?_eq_none] at hall
        exact hall (init_item i) (List.mem_map.mpr ⟨i, hi, rfl⟩)
          (by simp [init_item_key, heq])
      have happ : ∀ i ∈ c.app, i.key ≠ "stored" := by
        rcases hside with ⟨i, hi, heq⟩ | happ
        · exact absurd heq (hnos i hi)
        · exact happ
      rw [List.append_assoc, List.map_append, keys_map_init,
        show ([stored_default_item] ++ c.app).map (fun i => i.key) =
          "stored" :: c.app.map (fun i => i.key) from rfl,
        List.nodup_middle, List.nodup_cons]
      have h' : ((c.rpcfg ++ c.app).map (fun i => i.key)).Nodup := h
      rw [List.map_append] at h'
      refine ⟨?_, h'⟩
      intro hmem
      rcases List.mem_append.mp hmem with hm | hm
      · obtain ⟨i, hi, heq⟩ := List.mem_map.mp hm
        exact hnos i hi heq
      · obtain ⟨i, hi, heq⟩ := List.mem_map.mp hm
        exact happ i hi heq
  · intro c n v h
    show (((update_item c n v).rpcfg ++ (update_item c n v).app).map (fun i => i.key)).Nodup
    rw [update_item_keys]
    exact h
  · intro c inp h hfresh
    show (((add_new_setting c inp).config.rpcfg ++
        (add_new_setting c inp).config.app).map (fun i => i.key)).Nodup
    rw [add_new_setting_config]
    dsimp only
    rw [← List.append_assoc, List.map_append,
      show List.map (fun (i : ConfigItem) => i.key)
          [{ key := str_trim (read_line inp).1,
             description := str_trim (read_line (read_line inp).2).1,
             shellscript := "",
             default := str_trim (read_line (read_line (read_line inp).2).2).1,
             temp_environment_variable_name :=
               str_trim (read_line (read_line (read_line (read_line inp).2).2).2).1,
             required_as_env :=
               str_to_lower
                 (str_trim
                   (read_line (read_line (read_line (read_line (read_line inp).2).2).2).2).1) == "y",
             value := str_trim (read_line (read_line (read_line inp).2).2).1 }] =
        [str_trim (read_line inp).1] from rfl,
      List.nodup_middle]
    rw [List.nodup_cons, List.append_nil]
    refine ⟨?_, h⟩
    intro hmem
    obtain ⟨i, hi, heq⟩ := List.mem_map.mp hmem
    exact hfresh i hi heq

/-- Witness for the amended C8: adding a fresh key keeps keys unique. -/
theorem c8_amended_witness :
    keys_nodup (add_new_setting cfg_local_min ["x", "d", "dv", "", "n"]).config :=
  c8_amended.2.2.2 cfg_local_min ["x", "d", "dv", "", "n"] (by decide) (by decide)

theorem loop_go_save (fuel : Nat) (c : Config) (rest : List String) (out : SaveOutput)
    (hs : save_configuration (validate_rpcfg_config c) false = Except.ok out) :
    loop_go (fuel + 1) c ("s" :: rest) false =
      Except.ok
        { config := validate_rpcfg_config c, exit := LoopExit.saved,
          saved := some out,
          messages := (show_current_config (validate_rpcfg_config c) ++ [main_prompt]) ++
            ["Configuration saved."] } := by
  conv_lhs => unfold loop_go
  dsimp only
  rw [if_pos (Or.inl (show str_trim "s" = "s" from rfl)), hs]

theorem collect_save (c : Config) (out : SaveOutput)
    (hs : save_configuration (validate_rpcfg_config (initialize_config_values c)) false =
      Except.ok out) :
    collect_user_input c ["s", "q"] =
      Except.ok
        { config := validate_rpcfg_config (initialize_config_values c),
          exit := LoopExit.saved, saved := some out,
          messages :=
            (show_current_config (validate_rpcfg_config (initialize_config_values c)) ++
              [main_prompt]) ++ ["Configuration saved."],
          env_sets :=
            set_environment_variables (validate_rpcfg_config (initialize_config_values c)),
          result :=
            { status := Status.ok,
              message := "Configuration collected successfully.",
              env_file := env_output_uri (validate_rpcfg_config (initialize_config_values c)),
              json_file :=
                json_output_uri (validate_rpcfg_config (initialize_config_values c)) } } := by
  have hl := loop_go_save (["s", "q"] : List String).length (initialize_config_values c)
    ["q"] out hs
  simp only [collect_user_input, hl]

/-- Counterexample to claim C3 as stated: the flat JSON map is a
`std::collections::HashMap` serialized in iteration order, and that order is
unspecified (randomized per map instance), so for a configuration whose map
has more than one entry two admissible serializations of the very same saved
state already differ byte-wise — byte-identical JSON output across runs is
not guaranteed by the code. -/
theorem c3_counterexample :
    ¬(∀ s1 s2 : String,
      json_bytes_admissible (validate_rpcfg_config (initialize_config_values cfg_two_items)) s1 →
      json_bytes_admissible (validate_rpcfg_config (initialize_config_values cfg_two_items)) s2 →
      s1 = s2) := by
  intro h
  have hperm : (([("stored", "local"), ("b", "2"), ("a", "1")] : List (String × String))).Perm
      [("stored", "local"), ("a", "1"), ("b", "2")] :=
    List.Perm.cons _ (List.Perm.swap _ _ _)
  have h12 := h (json_pretty [("stored", "local"), ("a", "1"), ("b", "2")])
    (json_pretty [("stored", "local"), ("b", "2"), ("a", "1")])
    ⟨[("stored", "local"), ("a", "1"), ("b", "2")], List.Perm.refl _, rfl⟩
    ⟨[("stored", "local"), ("b", "2"), ("a", "1")], hperm, rfl⟩
  exact absurd h12 (by decide)

/-- Claim C3 as amended: with only save/quit input and no edits, a second run
of the collector saves exactly the same data as the first — the JSON map
entries are identical and the env-file bytes are identical — because
initialization and validation are idempotent; only the byte order of the
JSON entries (the unspecified HashMap iteration order) is not fixed. -/
theorem c3_amended (c : Config) (out : SaveOutput)
    (hs : save_configuration (validate_rpcfg_config (initialize_config_values c)) false =
      Except.ok out) :
    ∃ r1 r2, collect_user_input c ["s", "q"] = Except.ok r1 ∧
      collect_user_input r1.config ["s", "q"] = Except.ok r2 ∧
      r1.saved = some out ∧ r2.saved = some out ∧ r2.config = r1.config := by
  have hinit := initialize_validate_stable c
  have hval := validate_idem (initialize_config_values c)
  have hs2 : save_configuration
      (validate_rpcfg_config
        (initialize_config_values (validate_rpcfg_config (initialize_config_values c))))
      false = Except.ok out := by
    rw [hinit, hval]
    exact hs
  refine ⟨_, _, collect_save c out hs,
    collect_save (validate_rpcfg_config (initialize_config_values c)) out hs2, rfl, rfl, ?_⟩
  show validate_rpcfg_config
      (initialize_config_values (validate_rpcfg_config (initialize_config_values c))) =
    validate_rpcfg_config (initialize_config_values c)
  rw [hinit, hval]

/-- Witness for the amended C3 at a concrete configuration. -/
theorem c3_amended_witness :
    ∃ r1 r2, collect_user_input cfg_local_min ["s", "q"] = Except.ok r1 ∧
      collect_user_input r1.config ["s", "q"] = Except.ok r2 ∧
      r1.saved =
        some
          { json_entries := [("stored", "local")], env_file_content := "",
            input_file_written := false } ∧
      r2.saved =
        some
          { json_entries := [("stored", "local")], env_file_content := "",
            input_file_written := false } ∧
      r2.config = r1.config :=
  c3_amended cfg_local_min
    { json_entries := [("stored", "local")], env_file_content := "",
      input_file_written := false } rfl

end Rpcfg
